import Mathlib

/-!
# Verification of the image-extraction library (`src/app/lib/extract.ts`)

Shallow embedding of the two exported operations, `extractImagesFromURL` and
`getBrowser`, together with the helpers `isImageUrl` and `getMimeTypeFromUrl`.

JavaScript strings are modelled as `String`, a possibly-absent header value as
`Option String` (with `none` for `undefined`), and JS numbers arising from
`Number(header)` as `JSNum` (which separates `NaN` from integers — all values
reachable here are integers or `NaN`).  The browser, the page and the remote
provider are external collaborators; their observable behaviour during one call
is captured by explicit behaviour records (`PageBehavior`, `BrowserProvider`)
whose fields give the outcome of each awaited external operation, and the
functions under verification are re-expressed as pure functions of those
records, following the control flow of the source line by line.
-/

/-! ## JS value model -/

/-- A JavaScript number as produced by `Number(x)` on header strings:
either `NaN` or an integer.  (Fractional values never arise for the inputs the
program feeds to `Number`, namely `content-length` header values.) -/
inductive JSNum where
  | nan : JSNum
  | int : Int → JSNum
deriving DecidableEq, Repr

/-- `x >= 0` in JS: false for `NaN` (any comparison with `NaN` is false). -/
def JSNum.isNonNeg : JSNum → Bool
  | .nan => false
  | .int n => decide (0 ≤ n)

/-! The JS string methods the program uses, expressed over the underlying
character list `String.data` (structurally recursive, so every concrete
instance evaluates). -/

/-- `s.toLowerCase()`. -/
def jsToLower (s : String) : String := ⟨s.data.map Char.toLower⟩

/-- `s.endsWith(suffix)`. -/
def jsEndsWith (s suffix : String) : Bool := suffix.data.isSuffixOf s.data

/-- `s.startsWith(p)`. -/
def jsStartsWith (s p : String) : Bool := p.data.isPrefixOf s.data

/-- `s.length`.  (JS counts UTF-16 code units; for the code points arising in
URLs and header values this is the number of characters.) -/
def jsLength (s : String) : Nat := s.data.length

/-- Whether `s` is the empty string. -/
def jsIsEmpty (s : String) : Bool := s.data.isEmpty

/-- Whitespace as stripped by JS number coercion (space/tab suffice for
header values). -/
def jsIsSpace (c : Char) : Bool := c == ' ' || c == '\t'

/-- The numeric value of a nonempty all-digit character list. -/
def digitsVal (cs : List Char) : Nat :=
  cs.foldl (fun a c => 10 * a + (c.toNat - 48)) 0

/-- An optionally signed decimal integer literal, else `none`. -/
def parseJsInt : List Char → Option Int
  | [] => none
  | '-' :: rest =>
    if rest.isEmpty then none
    else if rest.all Char.isDigit then some (-(digitsVal rest : Int)) else none
  | '+' :: rest =>
    if rest.isEmpty then none
    else if rest.all Char.isDigit then some (digitsVal rest) else none
  | cs =>
    if cs.all Char.isDigit then some (digitsVal cs) else none

/-- JS `Number(x)` coercion, restricted to the argument shapes that occur for
header values: `undefined ↦ NaN`, empty/whitespace-only string `↦ 0`,
optionally signed decimal integer string `↦` its value, anything else `↦ NaN`.
(`content-length` values are decimal integers when present at all; fractional,
hex and exponent forms do not arise.) -/
def jsToNumber : Option String → JSNum
  | none => .nan
  | some s =>
    let t := (s.data.dropWhile jsIsSpace).reverse.dropWhile jsIsSpace |>.reverse
    if t.isEmpty then .int 0
    else
      match parseJsInt t with
      | some n => .int n
      | none => .nan

/-- JS truthiness of a string-or-undefined value: `undefined` and `""` are
falsy, every other string is truthy. -/
def strTruthy : Option String → Bool
  | none => false
  | some s => !jsIsEmpty s

/-- JS `a || b` where `a` is a string-or-undefined and `b` a string:
returns `a` when truthy, else `b`. -/
def jsOrStr (a : Option String) (b : String) : String :=
  match a with
  | none => b
  | some s => if jsIsEmpty s then b else s

/-! ## Classification helpers (lines 9–28 of `extract.ts`) -/

/-- `const IMAGE_EXTENSIONS = ['.jpg', '.jpeg', '.png', '.gif', '.webp',
'.bmp', '.ico', '.svg'];` -/
def IMAGE_EXTENSIONS : List String :=
  [".jpg", ".jpeg", ".png", ".gif", ".webp", ".bmp", ".ico", ".svg"]

/-- `function isImageUrl(url)`: lowercase the URL string and test whether it
ends with one of the image extensions. -/
def isImageUrl (url : String) : Bool :=
  let urlLower := jsToLower url
  IMAGE_EXTENSIONS.any (fun ext => jsEndsWith urlLower ext)

/-- `function getMimeTypeFromUrl(url)`: infer a mime type from the lowercased
URL's ending; `none` models the JS `null` fall-through. -/
def getMimeTypeFromUrl (url : String) : Option String :=
  let urlLower := jsToLower url
  if jsEndsWith urlLower ".jpg" || jsEndsWith urlLower ".jpeg" then some "image/jpeg"
  else if jsEndsWith urlLower ".png" then some "image/png"
  else if jsEndsWith urlLower ".gif" then some "image/gif"
  else if jsEndsWith urlLower ".webp" then some "image/webp"
  else if jsEndsWith urlLower ".bmp" then some "image/bmp"
  else if jsEndsWith urlLower ".ico" then some "image/x-icon"
  else if jsEndsWith urlLower ".svg" then some "image/svg+xml"
  else none

/-! ## Data model -/

/-- The `ExtractImageData` record (`~/types`), as built by the response
handler and mutated by the decode pass. -/
structure ExtractImageData where
  src : String
  size : JSNum
  mimeType : String
  width : Nat
  height : Nat
  decoded : Bool
deriving DecidableEq, Repr

/-- One network response observed by the `page.on("response", …)` handler:
its URL, and its `content-type` / `content-length` headers (`none` when the
header is absent). -/
structure Response where
  url : String
  contentType : Option String
  contentLength : Option String
deriving DecidableEq, Repr

/-- `contentType?.startsWith("image")`, coerced to a boolean:
`undefined?.startsWith(…)` is `undefined`, hence falsy. -/
def ctStartsWithImage : Option String → Bool
  | none => false
  | some s => jsStartsWith s "image"

/-- The handler's guard
`const isImage = contentType?.startsWith("image") || isImageUrl(responseUrl)`. -/
def isImageResponse (r : Response) : Bool :=
  ctStartsWithImage r.contentType || isImageUrl r.url

/-- The record the handler pushes for a qualifying response (lines 43–57):
`size` is `Number(headers["content-length"])`, overwritten by `src.length`
for `data:` sources; `mimeType` is
`contentType || getMimeTypeFromUrl(responseUrl) || 'image/unknown'`;
`width`/`height` start at `0` and `decoded` at `false`. -/
def mkRecord (r : Response) : ExtractImageData :=
  { src := r.url
    size := if jsStartsWith r.url "data:" then JSNum.int (jsLength r.url)
            else jsToNumber r.contentLength
    mimeType := jsOrStr r.contentType (jsOrStr (getMimeTypeFromUrl r.url) "image/unknown")
    width := 0
    height := 0
    decoded := false }

/-- The handler applied to each observed response in discovery order: a
record is pushed onto `images` exactly for the qualifying responses. -/
def collectRecords (responses : List Response) : List ExtractImageData :=
  responses.filterMap (fun r => if isImageResponse r then some (mkRecord r) else none)

/-! ## Decode pass (lines 62–78) -/

/-- One iteration of the `page.evaluate` decode pass for a single record,
parameterised by the page's decode facility `decode` (mapping a `src` to its
natural dimensions on success, `none` on a decode failure): on success copy
width/height and set `decoded := true`; on failure (`catch`) return the
record unchanged. -/
def decodeImage (decode : String → Option (Nat × Nat)) (image : ExtractImageData) :
    ExtractImageData :=
  match decode image.src with
  | some wh => { image with width := wh.1, height := wh.2, decoded := true }
  | none => image

/-- `Promise.all(images.map(…))`: every record goes through its own decode
attempt, failures do not affect the others. -/
def decodeAll (decode : String → Option (Nat × Nat)) (images : List ExtractImageData) :
    List ExtractImageData :=
  images.map (decodeImage decode)

/-! ## Deduplication (lines 82–88) -/

/-- The comparison inside `findIndex`:
`(t) => t.src === image.src && t.mimeType === image.mimeType`. -/
def keyMatch (image : ExtractImageData) (t : ExtractImageData) : Bool :=
  t.src == image.src && t.mimeType == image.mimeType

/-- JS `Array.prototype.findIndex`: index of the first match, `-1` if none. -/
def jsFindIndex {α : Type} (p : α → Bool) (l : List α) : Int :=
  match l.findIdx? p with
  | some n => (n : Int)
  | none => -1

/-- `images.filter((image, index, self) => index === self.findIndex((t) =>
t.src === image.src && t.mimeType === image.mimeType))`. -/
def dedupImages (images : List ExtractImageData) : List ExtractImageData :=
  (images.enum.filter
    (fun p => (p.1 : Int) == jsFindIndex (keyMatch p.2) images)).map Prod.snd

/-! ## The extraction call (lines 30–92) -/

/-- Error values raised by the external browser operations.  The concrete
type is irrelevant to the program (errors are re-thrown untouched); a string
stands in for an arbitrary error object. -/
abbrev Err := String

/-- The observable behaviour of the browser/page during one
`extractImagesFromURL` call: the outcome of each awaited page operation
(`none` = resolves, `some e` = rejects with `e`), the network responses the
page's handler observes (in discovery order), and the page's image-decode
facility.  `page.close()` is modelled as always succeeding. -/
structure PageBehavior where
  newPageResult : Option Err
  responses : List Response
  gotoResult : Option Err
  screenshotResult : Option Err
  evalResult : Option Err
  decode : String → Option (Nat × Nat)

/-- What one `extractImagesFromURL` call did: its returned value or thrown
error, whether `browser.newPage()` completed, and whether `page.close()` was
reached before the call ended. -/
structure ExtractOutcome where
  result : Except Err (List ExtractImageData)
  pageOpened : Bool
  pageClosed : Bool
deriving Repr

/-- `export async function extractImagesFromURL(browser, url)`, as a function
of the page behaviour: open a page, register the response handler, `goto`,
`screenshot`, `evaluate` the decode pass, `close`, deduplicate, return.  The
surrounding `try { … } catch (e) { throw e; }` re-throws every error
unchanged, so each rejecting `await` ends the call with that same error — and
on those paths `page.close()` is never reached. -/
def extractImagesFromURL (b : PageBehavior) : ExtractOutcome :=
  match b.newPageResult with
  | some e => ⟨.error e, false, false⟩
  | none =>
    match b.gotoResult with
    | some e => ⟨.error e, true, false⟩
    | none =>
      match b.screenshotResult with
      | some e => ⟨.error e, true, false⟩
      | none =>
        match b.evalResult with
        | some e => ⟨.error e, true, false⟩
        | none =>
          ⟨.ok (dedupImages (decodeAll b.decode (collectRecords b.responses))),
            true, true⟩

/-- The full inventory the call returns when no external operation fails. -/
def fullInventory (b : PageBehavior) : List ExtractImageData :=
  dedupImages (decodeAll b.decode (collectRecords b.responses))

/-- The first rejecting `await` of the call, if any (page open, navigation,
render pass, in-page evaluation — in program order). -/
def firstFailure (b : PageBehavior) : Option Err :=
  match b.newPageResult with
  | some e => some e
  | none =>
    match b.gotoResult with
    | some e => some e
    | none =>
      match b.screenshotResult with
      | some e => some e
      | none => b.evalResult

/-! ## Browser acquisition (`getBrowser`, lines 94–151) -/

/-- A browser handle; the tag only serves to tell handles apart. -/
structure Browser where
  tag : String
deriving DecidableEq, Repr

/-- One entry of the list returned by `puppeteer.sessions(BROWSER)`:
a session id, and the id of the connection currently attached to it
(`undefined` when the session is idle). -/
structure SessionInfo where
  sessionId : String
  connectionId : Option String
deriving DecidableEq, Repr

/-- The provider-side behaviour during one `getBrowser` call: the outcome of
each remote operation.  `sessions` is `puppeteer.sessions(BROWSER)`;
`limits` is `puppeteer.limits(BROWSER)` projected to
`activeSessions.map(({id}) => id)`; `connect sid` is
`puppeteer.connect(BROWSER, sid)`; `launchNew` is
`launch(BROWSER, { keep_alive: 600000 })`; `connectWS ep` is
`puppeteer.connect({ browserWSEndpoint: ep })`.  An `Except.error` models the
promise rejecting. -/
structure BrowserProvider where
  sessions : Except Err (List SessionInfo)
  limits : Except Err (List String)
  connect : String → Except Err Browser
  launchNew : Except Err Browser
  connectWS : String → Except Err Browser

/-- The `for (const sessionId of …) { try { connect; break } catch { continue } }`
loops: try each id in order, keep the first successful connection, skip
failures, `none` when the list is exhausted. -/
def tryConnectEach (p : BrowserProvider) : List String → Option Browser
  | [] => none
  | sid :: rest =>
    match p.connect sid with
    | .ok b => some b
    | .error _ => tryConnectEach p rest

/-- The trailing `if (!browser && wsEndpoint) { try { connect({browserWSEndpoint})
} catch { log } }` step: only runs when no handle was obtained and the
endpoint string is truthy; its failure is swallowed. -/
def wsFallback (p : BrowserProvider) (wsEndpoint : Option String)
    (browser : Option Browser) : Option Browser :=
  if browser.isNone && strTruthy wsEndpoint then
    match wsEndpoint with
    | some ep =>
      match p.connectWS ep with
      | .ok b => some b
      | .error _ => browser
    | none => browser
  else browser

/-- `export async function getBrowser(BROWSER, wsEndpoint?)`.  `hasWorker`
models the truthiness test `if (BROWSER)`.  Note that
`await puppeteer.sessions(BROWSER)` and `await puppeteer.limits(BROWSER)` are
*not* inside any `try`, so their rejections propagate out of the function,
while every `connect`/`launch` failure is caught and logged. -/
def getBrowser (p : BrowserProvider) (hasWorker : Bool) (wsEndpoint : Option String) :
    Except Err (Option Browser) :=
  if hasWorker then
    match p.sessions with
    | .error e => .error e
    | .ok sessions =>
      let sessionIds :=
        (sessions.filter (fun s => !strTruthy s.connectionId)).map SessionInfo.sessionId
      let afterIdle := tryConnectEach p sessionIds
      let afterActive : Except Err (Option Browser) :=
        match afterIdle with
        | some b => .ok (some b)
        | none =>
          match p.limits with
          | .error e => .error e
          | .ok activeIds => .ok (tryConnectEach p activeIds)
      match afterActive with
      | .error e => .error e
      | .ok b2 =>
        let b3 :=
          match b2 with
          | some b => some b
          | none =>
            match p.launchNew with
            | .ok b => some b
            | .error _ => none
        .ok (wsFallback p wsEndpoint b3)
  else
    .ok (wsFallback p wsEndpoint none)

/-! ## Spec-side comparison definitions and concrete instances -/

/-! ## Sample behaviours used to instantiate the theorems -/

/-- A decode facility that succeeds on one specific `src` with dimensions
10 × 20 and fails on everything else. -/
def sampleDecode : String → Option (Nat × Nat) :=
  fun s => if s = "http://e.com/a.png" then some (10, 20) else none

/-- A fully successful call observing five responses: a duplicated `image/png`
response, an extension-only `.GIF` response with no headers, a `data:` URI,
and a non-image `text/html` page. -/
def sampleBehavior : PageBehavior :=
  { newPageResult := none
    responses := [⟨"http://e.com/a.png", some "image/png", some "18"⟩,
                  ⟨"http://e.com/a.png", some "image/png", some "18"⟩,
                  ⟨"http://e.com/b.GIF", none, none⟩,
                  ⟨"data:image/png;base64,AAAA", some "image/png", none⟩,
                  ⟨"http://e.com/page", some "text/html", some "100"⟩]
    gotoResult := none
    screenshotResult := none
    evalResult := none
    decode := sampleDecode }

/-- The inventory `sampleBehavior` produces. -/
def sampleInventory : List ExtractImageData :=
  [⟨"http://e.com/a.png", .int 18, "image/png", 10, 20, true⟩,
   ⟨"http://e.com/b.GIF", .nan, "image/gif", 0, 0, false⟩,
   ⟨"data:image/png;base64,AAAA", .int 26, "image/png", 0, 0, false⟩]

/-- A call whose navigation (`page.goto`) rejects. -/
def navFailBehavior : PageBehavior :=
  { newPageResult := none
    responses := [⟨"http://e.com/a.png", some "image/png", some "18"⟩]
    gotoResult := some "net::ERR_NAME_NOT_RESOLVED"
    screenshotResult := none
    evalResult := none
    decode := fun _ => none }

/-- C8 as stated is false: a *present but empty* `content-type` header is
falsy in JS, so `contentType || getMimeTypeFromUrl(url) || 'image/unknown'`
skips it and uses the extension-inferred type instead of the header value. -/
def emptyCtBehavior : PageBehavior :=
  { newPageResult := none
    responses := [⟨"http://e.com/c.gif", some "", some "10"⟩]
    gotoResult := none
    screenshotResult := none
    evalResult := none
    decode := fun _ => none }

/-- The claim's reading of the URL condition: the *path* part of the URL —
everything before the first `?` or `#` — matches a recognized image
extension, case-insensitively.  (Second definition for comparison; the code
itself tests the whole URL string, see `isImageUrl`.) -/
def urlPath (url : String) : String :=
  ⟨url.data.takeWhile (fun c => !(c == '?' || c == '#'))⟩

/-- The claim's qualification condition: image-prefixed `content-type`
header, or image extension at the end of the URL's *path*. -/
def specQualifies (r : Response) : Bool :=
  ctStartsWithImage r.contentType || isImageUrl (urlPath r.url)

/-- A call observing a single response: an image URL carrying a query
string, with no headers. -/
def queryUrlBehavior : PageBehavior :=
  { newPageResult := none
    responses := [⟨"http://e.com/pic.png?v=2", none, none⟩]
    gotoResult := none
    screenshotResult := none
    evalResult := none
    decode := fun _ => none }

/-- The code's actual URL condition, spelled out: the whole URL string,
lowercased, ends with one of the eight recognized extensions. -/
def extensionMatch (url : String) : Bool :=
  jsEndsWith (jsToLower url) ".jpg" || jsEndsWith (jsToLower url) ".jpeg" ||
  jsEndsWith (jsToLower url) ".png" || jsEndsWith (jsToLower url) ".gif" ||
  jsEndsWith (jsToLower url) ".webp" || jsEndsWith (jsToLower url) ".bmp" ||
  jsEndsWith (jsToLower url) ".ico" || jsEndsWith (jsToLower url) ".svg"

/-- A provider whose session-listing call rejects. -/
def failingListProvider : BrowserProvider :=
  { sessions := .error "sessions listing failed"
    limits := .ok []
    connect := fun _ => .error "attach failed"
    launchNew := .error "launch failed"
    connectWS := fun _ => .error "ws failed" }

/-- A provider where every attach, launch and direct-connect attempt fails,
but listing and limits resolve. -/
def allConnectsFailProvider : BrowserProvider :=
  { sessions := .ok [⟨"s1", none⟩]
    limits := .ok ["s9"]
    connect := fun _ => .error "attach failed"
    launchNew := .error "launch failed"
    connectWS := fun _ => .error "ws failed" }

/-- A pool provider with three idle sessions where only the third attaches. -/
def threeIdleProvider : BrowserProvider :=
  { sessions := .ok [⟨"s1", none⟩, ⟨"s2", none⟩, ⟨"s3", none⟩]
    limits := .ok []
    connect := fun sid => if sid = "s3" then .ok ⟨"b3"⟩ else .error "attach failed"
    launchNew := .error "launch failed"
    connectWS := fun _ => .error "ws failed" }

/-! ## Lemmas about the deduplication filter -/

/-- The deduplication key of a record: the (`src`, `mimeType`) pair. -/
def recordKey (i : ExtractImageData) : String × String := (i.src, i.mimeType)

theorem keyMatch_self (x : ExtractImageData) : keyMatch x x = true := by
  simp [keyMatch]

theorem keyMatch_eq_decide (a b : ExtractImageData) :
    keyMatch a b = decide (recordKey b = recordKey a) := by
  rw [Bool.eq_iff_iff]
  simp [keyMatch, recordKey, Prod.ext_iff]

theorem dedupImages_nil : dedupImages [] = [] := rfl

theorem dedup_shift_pred (x y : ExtractImageData) (l : List ExtractImageData) (n : Nat) :
    (((n + 1 : Nat) : Int) == jsFindIndex (keyMatch y) (x :: l))
      = (!(keyMatch y x) && ((n : Int) == jsFindIndex (keyMatch y) l)) := by
  unfold jsFindIndex
  rw [List.findIdx?_cons]
  cases h : keyMatch y x with
  | true =>
    simp only [if_pos rfl]
    rw [Bool.eq_iff_iff]
    simp [beq_iff_eq]
    omega
  | false =>
    simp only [Bool.false_eq_true, if_neg, Bool.not_false, Bool.true_and]
    rw [List.findIdx?_start_succ]
    cases hf : l.findIdx? (keyMatch y) with
    | none =>
      simp only [hf, Option.map_none']
      rw [Bool.eq_iff_iff]
      simp [beq_iff_eq]
      omega
    | some k =>
      simp only [hf, Option.map_some']
      rw [Bool.eq_iff_iff]
      simp [beq_iff_eq]

/-- Recursive characterisation of the JS `filter`/`findIndex` deduplication:
the head is always kept, and the tail is deduplicated and then stripped of
every record matching the head's key. -/
theorem dedupImages_cons (x : ExtractImageData) (l : List ExtractImageData) :
    dedupImages (x :: l) = x :: (dedupImages l).filter (fun t => !(keyMatch t x)) := by
  unfold dedupImages
  rw [List.enum_cons']
  rw [List.filter_cons]
  have hx : ((0 : Nat) : Int) == jsFindIndex (keyMatch x) (x :: l) := by
    unfold jsFindIndex
    rw [List.findIdx?_cons]
    simp [keyMatch_self]
  rw [if_pos hx]
  rw [List.map_cons]
  congr 1
  rw [List.filter_map]
  have hcong :
      ((fun p : Nat × ExtractImageData => (p.1 : Int) == jsFindIndex (keyMatch p.2) (x :: l)) ∘
          (Prod.map (· + 1) id))
        = fun p : Nat × ExtractImageData =>
            (!(keyMatch p.2 x) && ((p.1 : Int) == jsFindIndex (keyMatch p.2) l)) := by
    funext p
    cases p with
    | mk n y => exact dedup_shift_pred x y l n
  rw [hcong]
  rw [← List.filter_filter]
  rw [List.map_map]
  have hsnd : (Prod.snd ∘ Prod.map (· + 1 : Nat → Nat)
        (id : ExtractImageData → ExtractImageData))
      = (Prod.snd : Nat × ExtractImageData → ExtractImageData) := by
    funext p; cases p; rfl
  rw [hsnd]
  rw [show (fun p : Nat × ExtractImageData => !(keyMatch p.2 x))
        = ((fun t => !(keyMatch t x)) ∘ Prod.snd) from rfl]
  rw [← List.filter_map]

/-- Deduplication only removes records; the survivors keep their relative
(discovery) order. -/
theorem dedupImages_sublist (l : List ExtractImageData) : List.Sublist (dedupImages l) l := by
  induction l with
  | nil => simp [dedupImages_nil]
  | cons x l ih =>
    rw [dedupImages_cons]
    exact List.Sublist.cons₂ x ((List.filter_sublist _).trans ih)

/-- No two records of the deduplicated list share a (`src`, `mimeType`) key. -/
theorem dedupImages_pairwise (l : List ExtractImageData) :
    (dedupImages l).Pairwise (fun a b => recordKey a ≠ recordKey b) := by
  induction l with
  | nil => simp [dedupImages_nil]
  | cons x l ih =>
    rw [dedupImages_cons]
    refine List.Pairwise.cons ?_ ?_
    · intro y hy
      have hmem := List.mem_filter.mp hy
      have hk := hmem.2
      rw [keyMatch_eq_decide] at hk
      simpa using hk
    · exact List.Pairwise.sublist (List.filter_sublist _) ih

/-- Every record surviving deduplication is the *first* record of the input
carrying its (`src`, `mimeType`) key. -/
theorem dedupImages_keeps_first (l : List ExtractImageData) :
    ∀ y ∈ dedupImages l, l.find? (keyMatch y) = some y := by
  induction l with
  | nil => intro y hy; simp [dedupImages_nil] at hy
  | cons x l ih =>
    rw [dedupImages_cons]
    intro y hy
    rcases List.mem_cons.mp hy with h | h
    · subst h
      exact List.find?_cons_of_pos _ (keyMatch_self y)
    · have hmem := List.mem_filter.mp h
      have hk : keyMatch y x = false := by
        have := hmem.2
        cases hkk : keyMatch y x
        · rfl
        · rw [hkk] at this; simp at this
      rw [List.find?_cons_of_neg _ (by simp [hk])]
      exact ih y hmem.1

/-- Every (`src`, `mimeType`) key of the input still has a representative
after deduplication. -/
theorem dedupImages_covers (l : List ExtractImageData) :
    ∀ x ∈ l, ∃ y ∈ dedupImages l, recordKey y = recordKey x := by
  induction l with
  | nil => intro x hx; simp at hx
  | cons a l ih =>
    intro x hx
    rw [dedupImages_cons]
    rcases List.mem_cons.mp hx with h | h
    · exact ⟨a, List.mem_cons_self a _, by rw [h]⟩
    · obtain ⟨y, hy, hk⟩ := ih x h
      by_cases hya : recordKey a = recordKey y
      · exact ⟨a, List.mem_cons_self a _, by rw [hya, hk]⟩
      · refine ⟨y, List.mem_cons_of_mem a ?_, hk⟩
        apply List.mem_filter.mpr
        refine ⟨hy, ?_⟩
        rw [keyMatch_eq_decide]
        simpa using hya

/-! ## Lemmas about record creation and the decode pass -/

theorem decodeImage_src (d : String → Option (Nat × Nat)) (i : ExtractImageData) :
    (decodeImage d i).src = i.src := by
  unfold decodeImage
  cases d i.src <;> rfl

theorem decodeImage_size (d : String → Option (Nat × Nat)) (i : ExtractImageData) :
    (decodeImage d i).size = i.size := by
  unfold decodeImage
  cases d i.src <;> rfl

theorem decodeImage_mimeType (d : String → Option (Nat × Nat)) (i : ExtractImageData) :
    (decodeImage d i).mimeType = i.mimeType := by
  unfold decodeImage
  cases d i.src <;> rfl

/-- A record the decode pass failed on is returned unchanged. -/
theorem decodeImage_of_not_decoded (d : String → Option (Nat × Nat)) (i : ExtractImageData)
    (h : (decodeImage d i).decoded = false) : decodeImage d i = i := by
  unfold decodeImage at h ⊢
  cases hd : d i.src with
  | none => rfl
  | some wh =>
    rw [hd] at h
    simp at h

theorem mem_collectRecords {rs : List Response} {x : ExtractImageData} :
    x ∈ collectRecords rs ↔ ∃ r ∈ rs, isImageResponse r = true ∧ x = mkRecord r := by
  unfold collectRecords
  rw [List.mem_filterMap]
  constructor
  · rintro ⟨r, hr, hx⟩
    by_cases h : isImageResponse r
    · rw [if_pos h] at hx
      exact ⟨r, hr, h, (Option.some_inj.mp hx).symm⟩
    · rw [if_neg h] at hx
      exact absurd hx (Option.some_ne_none _).symm
  · rintro ⟨r, hr, h, hx⟩
    exact ⟨r, hr, by rw [if_pos h, hx]⟩

/-- Every record of the returned inventory originates from a qualifying
observed response, via the decode pass. -/
theorem mem_fullInventory {b : PageBehavior} {rec : ExtractImageData}
    (h : rec ∈ fullInventory b) :
    ∃ r ∈ b.responses, isImageResponse r = true ∧ rec = decodeImage b.decode (mkRecord r) := by
  unfold fullInventory at h
  have h1 : rec ∈ decodeAll b.decode (collectRecords b.responses) :=
    (dedupImages_sublist _).subset h
  unfold decodeAll at h1
  obtain ⟨i, hi, hrec⟩ := List.mem_map.mp h1
  obtain ⟨r, hr, hq, hieq⟩ := mem_collectRecords.mp hi
  exact ⟨r, hr, hq, by rw [← hrec, hieq]⟩

/-! ## Result characterisation of the extraction call -/

theorem extract_ok_iff (b : PageBehavior) (out : List ExtractImageData) :
    (extractImagesFromURL b).result = Except.ok out ↔
      firstFailure b = none ∧ out = fullInventory b := by
  obtain ⟨np, rs, gt, sc, ev, dec⟩ := b
  unfold extractImagesFromURL firstFailure fullInventory
  cases np <;> cases gt <;> cases sc <;> cases ev <;> simp [eq_comm]

theorem extract_error_iff (b : PageBehavior) (e : Err) :
    (extractImagesFromURL b).result = Except.error e ↔ firstFailure b = some e := by
  obtain ⟨np, rs, gt, sc, ev, dec⟩ := b
  unfold extractImagesFromURL firstFailure
  cases np <;> cases gt <;> cases sc <;> cases ev <;> simp

/-! ## C1 — deduplication (spec §3 invariant, §4.2 step 6, §8) -/

/-- C1: in every list returned by `extractImagesFromURL`, no two records have
identical (`src`, `mimeType`) pairs; the returned records are a subsequence
of the decoded discovery-order list; each returned record is the *first*
record with its (`src`, `mimeType`) pair in discovery order; and every
discovered (`src`, `mimeType`) pair still has a representative. -/
theorem C1_result_unique_keeps_first (b : PageBehavior) (out : List ExtractImageData)
    (h : (extractImagesFromURL b).result = Except.ok out) :
    out.Pairwise (fun a c => recordKey a ≠ recordKey c) ∧
    List.Sublist out (decodeAll b.decode (collectRecords b.responses)) ∧
    (∀ y ∈ out,
      (decodeAll b.decode (collectRecords b.responses)).find? (keyMatch y) = some y) ∧
    ∀ x ∈ decodeAll b.decode (collectRecords b.responses),
      ∃ y ∈ out, recordKey y = recordKey x := by
  have hout : out = fullInventory b := ((extract_ok_iff b out).mp h).2
  unfold fullInventory at hout
  subst hout
  exact ⟨dedupImages_pairwise _, dedupImages_sublist _, dedupImages_keeps_first _,
    dedupImages_covers _⟩

/-- C1 instantiated on `sampleBehavior`, whose response list contains a
duplicate (`src`, `mimeType`) pair. -/
theorem C1_witness :
    sampleInventory.Pairwise (fun a c => recordKey a ≠ recordKey c) ∧
    List.Sublist sampleInventory
      (decodeAll sampleBehavior.decode (collectRecords sampleBehavior.responses)) ∧
    (∀ y ∈ sampleInventory,
      (decodeAll sampleBehavior.decode (collectRecords sampleBehavior.responses)).find?
        (keyMatch y) = some y) ∧
    ∀ x ∈ decodeAll sampleBehavior.decode (collectRecords sampleBehavior.responses),
      ∃ y ∈ sampleInventory, recordKey y = recordKey x :=
  C1_result_unique_keeps_first sampleBehavior sampleInventory rfl

/-! ## C9 — structural-error propagation (spec §4.2, §7) -/

/-- C9: an error raised by page opening, navigation or the forced render pass
ends the call with that very error value (the `catch (e) { throw e }` wrapper
re-throws it unmodified, and there is no retry); and in general the caller
receives either the full inventory or the first raised error — never a
partial inventory together with an error. -/
theorem C9_errors_propagate_unmodified (b : PageBehavior) :
    (∀ e : Err,
      (b.newPageResult = some e ∨
       b.newPageResult = none ∧ b.gotoResult = some e ∨
       b.newPageResult = none ∧ b.gotoResult = none ∧ b.screenshotResult = some e) →
      (extractImagesFromURL b).result = Except.error e) ∧
    ((extractImagesFromURL b).result = Except.ok (fullInventory b) ∨
     ∃ e, firstFailure b = some e ∧ (extractImagesFromURL b).result = Except.error e) := by
  obtain ⟨np, rs, gt, sc, ev, dec⟩ := b
  constructor
  · intro e he
    unfold extractImagesFromURL
    rcases he with h | ⟨h1, h2⟩ | ⟨h1, h2, h3⟩
    · simp_all
    · simp_all
    · simp_all
  · cases np <;> cases gt <;> cases sc <;> cases ev <;>
      simp [extractImagesFromURL, firstFailure, fullInventory]

/-- C9 instantiated: a failing `goto` makes the call end with exactly that
error. -/
theorem C9_witness :
    (extractImagesFromURL navFailBehavior).result =
      Except.error "net::ERR_NAME_NOT_RESOLVED" :=
  (C9_errors_propagate_unmodified navFailBehavior).1 "net::ERR_NAME_NOT_RESOLVED"
    (Or.inr (Or.inl ⟨rfl, rfl⟩))

/-! ## C5 — the page is *not* closed on error exit paths (spec §4.2 step 1) -/

/-- C5 fails on the code: when `page.goto` rejects, the `catch (e) { throw e }`
wrapper re-throws before `await page.close()` is ever reached, so the call
propagates the error with the page still open.  (The spec itself flags this:
“current behavior lacks this guarantee in the error path”.)  Concretely, on
`navFailBehavior` the call ends with the navigation error, the page was
opened, and `page.close()` was never executed. -/
theorem C5_page_left_open_on_goto_error :
    (extractImagesFromURL navFailBehavior).result =
        Except.error "net::ERR_NAME_NOT_RESOLVED" ∧
      (extractImagesFromURL navFailBehavior).pageOpened = true ∧
      (extractImagesFromURL navFailBehavior).pageClosed = false :=
  ⟨rfl, rfl, rfl⟩

/-! ## C7 — `decoded == false` implies zero dimensions (spec §3, §8) -/

/-- C7: width/height start at 0 when the handler creates a record and are only
assigned by the successful decode branch that also sets `decoded := true`; a
failed decode returns the record unchanged.  Hence every returned record with
`decoded = false` has `width = 0` and `height = 0`. -/
theorem C7_not_decoded_zero_dims (b : PageBehavior) (out : List ExtractImageData)
    (h : (extractImagesFromURL b).result = Except.ok out) :
    ∀ rec ∈ out, rec.decoded = false → rec.width = 0 ∧ rec.height = 0 := by
  intro rec hrec hdec
  have hout : out = fullInventory b := ((extract_ok_iff b out).mp h).2
  subst hout
  obtain ⟨r, _, _, hrdec⟩ := mem_fullInventory hrec
  have hunch : decodeImage b.decode (mkRecord r) = mkRecord r := by
    apply decodeImage_of_not_decoded
    rw [← hrdec]
    exact hdec
  rw [hrdec, hunch]
  exact ⟨rfl, rfl⟩

/-- C7 instantiated on `sampleBehavior`: the `.GIF` record fails its decode
and keeps zero dimensions. -/
theorem C7_witness :
    (⟨"http://e.com/b.GIF", .nan, "image/gif", 0, 0, false⟩ : ExtractImageData).width = 0 ∧
    (⟨"http://e.com/b.GIF", .nan, "image/gif", 0, 0, false⟩ : ExtractImageData).height = 0 :=
  C7_not_decoded_zero_dims sampleBehavior sampleInventory rfl
    ⟨"http://e.com/b.GIF", .nan, "image/gif", 0, 0, false⟩ (by decide) rfl

/-! ## C4 — the `size` field (spec §3, §8) -/

/-- C4 as stated is false: for an ordinary URL whose response has *no*
`content-length` header, `Number(undefined)` is `NaN`, which is not a
non-negative number.  On `sampleBehavior`, the `.GIF` response (no headers)
produces a returned record whose `size` is `NaN`. -/
theorem C4_counterexample :
    (extractImagesFromURL sampleBehavior).result = Except.ok sampleInventory ∧
    (∃ rec ∈ sampleInventory, rec.size.isNonNeg = false) ∧
    (∃ r ∈ sampleBehavior.responses,
      r.url = "http://e.com/b.GIF" ∧ r.contentLength = none) :=
  ⟨rfl,
   ⟨⟨"http://e.com/b.GIF", .nan, "image/gif", 0, 0, false⟩, by decide, rfl⟩,
   ⟨⟨"http://e.com/b.GIF", none, none⟩, by decide, rfl, rfl⟩⟩

/-- C4 amended: for every returned record, `size` is the JS numeric coercion
of the originating response's `content-length` header for ordinary URLs —
`NaN` when the header is missing or malformed, so not necessarily a
non-negative number — and for `src` values starting with `"data:"` it is the
character length of the URI itself (and in that case non-negative). -/
theorem C4_amended_size (b : PageBehavior) (out : List ExtractImageData)
    (h : (extractImagesFromURL b).result = Except.ok out) :
    ∀ rec ∈ out, ∃ r ∈ b.responses, rec.src = r.url ∧
      (jsStartsWith r.url "data:" = true →
        rec.size = JSNum.int (jsLength r.url) ∧ rec.size.isNonNeg = true) ∧
      (jsStartsWith r.url "data:" = false → rec.size = jsToNumber r.contentLength) := by
  intro rec hrec
  have hout : out = fullInventory b := ((extract_ok_iff b out).mp h).2
  subst hout
  obtain ⟨r, hr, _, hrdec⟩ := mem_fullInventory hrec
  refine ⟨r, hr, ?_, ?_, ?_⟩
  · rw [hrdec, decodeImage_src]
    rfl
  · intro hdata
    have hsize : rec.size = (mkRecord r).size := by rw [hrdec, decodeImage_size]
    have hval : (mkRecord r).size = JSNum.int (jsLength r.url) := by
      unfold mkRecord
      simp [hdata]
    rw [hsize, hval]
    refine ⟨rfl, ?_⟩
    simp only [JSNum.isNonNeg, decide_eq_true_eq]
    exact Int.natCast_nonneg _
  · intro hdata
    have hsize : rec.size = (mkRecord r).size := by rw [hrdec, decodeImage_size]
    rw [hsize]
    unfold mkRecord
    simp [hdata]

/-- C4 amended, instantiated on the `data:` URI record of `sampleBehavior`. -/
theorem C4_witness :
    ∃ r ∈ sampleBehavior.responses,
      (⟨"data:image/png;base64,AAAA", .int 26, "image/png", 0, 0, false⟩ :
          ExtractImageData).src = r.url ∧
      (jsStartsWith r.url "data:" = true →
        (⟨"data:image/png;base64,AAAA", .int 26, "image/png", 0, 0, false⟩ :
            ExtractImageData).size = JSNum.int (jsLength r.url) ∧
        (⟨"data:image/png;base64,AAAA", .int 26, "image/png", 0, 0, false⟩ :
            ExtractImageData).size.isNonNeg = true) ∧
      (jsStartsWith r.url "data:" = false →
        (⟨"data:image/png;base64,AAAA", .int 26, "image/png", 0, 0, false⟩ :
            ExtractImageData).size = jsToNumber r.contentLength) :=
  C4_amended_size sampleBehavior sampleInventory rfl
    ⟨"data:image/png;base64,AAAA", .int 26, "image/png", 0, 0, false⟩ (by decide)

/-! ## C8 — mime-type resolution order (spec §4.2 step 2, §8) -/

theorem jsIsEmpty_eq_false_of_ne {s : String} (h : s ≠ "") : jsIsEmpty s = false := by
  unfold jsIsEmpty
  cases hs : s.data with
  | nil =>
    exfalso
    apply h
    cases s
    cases hs
    rfl
  | cons c cs => rfl

theorem getMimeTypeFromUrl_ne_empty {u m : String} (h : getMimeTypeFromUrl u = some m) :
    jsIsEmpty m = false := by
  simp only [getMimeTypeFromUrl] at h
  split_ifs at h <;> (injection h with h'; subst h'; rfl)

/-- C8 counterexample: the observed response carries the `content-type`
header (present, value `""`), yet the resulting record's `mimeType` is the
extension-inferred `"image/gif"`, not the header value. -/
theorem C8_counterexample :
    emptyCtBehavior.responses = [⟨"http://e.com/c.gif", some "", some "10"⟩] ∧
    (extractImagesFromURL emptyCtBehavior).result =
      Except.ok [⟨"http://e.com/c.gif", JSNum.int 10, "image/gif", 0, 0, false⟩] ∧
    ("image/gif" : String) ≠ "" :=
  ⟨rfl, rfl, by decide⟩

/-- C8 amended: `mimeType` is resolved as — the `content-type` header when
present *and non-empty*; else the extension-inferred type when the URL ends
in a recognized extension; else the literal `"image/unknown"`.  In
particular, a response with no `content-type` header and a URL ending in
`.gif` gets `mimeType = "image/gif"`. -/
theorem C8_amended_mime_resolution (r : Response) :
    (∀ ct, r.contentType = some ct → ct ≠ "" → (mkRecord r).mimeType = ct) ∧
    ((r.contentType = none ∨ r.contentType = some "") →
      (∀ m, getMimeTypeFromUrl r.url = some m → (mkRecord r).mimeType = m) ∧
      (getMimeTypeFromUrl r.url = none → (mkRecord r).mimeType = "image/unknown")) := by
  constructor
  · intro ct hct hne
    unfold mkRecord jsOrStr
    simp only [hct]
    rw [jsIsEmpty_eq_false_of_ne hne]
    rfl
  · intro hct
    constructor
    · intro m hm
      unfold mkRecord jsOrStr
      rcases hct with h | h
      all_goals
        simp only [h, hm]
        rw [getMimeTypeFromUrl_ne_empty hm]
        rfl
    · intro hm
      unfold mkRecord jsOrStr
      rcases hct with h | h <;> (simp only [h, hm]; try rfl)

/-- C8 amended, instantiated on the claim's own example: no `content-type`
header and a URL ending in `.gif`. -/
theorem C8_witness :
    (mkRecord ⟨"http://e.com/b.gif", none, none⟩).mimeType = "image/gif" :=
  ((C8_amended_mime_resolution ⟨"http://e.com/b.gif", none, none⟩).2 (Or.inl rfl)).1
    "image/gif" rfl

/-! ## C10 — a non-image header is kept verbatim (implicit, lines 37–58) -/

/-- C10: a response whose `content-type` header is a non-empty string not
starting with `"image"` but whose URL ends in a recognized image extension
still qualifies (via the extension branch), and its record keeps the
non-image header value verbatim as `mimeType` — no extension-based inference
happens for it. -/
theorem C10_nonimage_header_verbatim (r : Response) (ct : String)
    (hct : r.contentType = some ct) (hne : ct ≠ "")
    (_hni : jsStartsWith ct "image" = false) (hext : isImageUrl r.url = true) :
    isImageResponse r = true ∧ (mkRecord r).mimeType = ct := by
  constructor
  · unfold isImageResponse ctStartsWithImage
    rw [hext]
    simp
  · unfold mkRecord jsOrStr
    simp only [hct]
    rw [jsIsEmpty_eq_false_of_ne hne]
    rfl

/-- C10 instantiated: a `text/html` response served from a `.jpg` URL. -/
theorem C10_witness :
    isImageResponse ⟨"http://e.com/a.jpg", some "text/html", some "5"⟩ = true ∧
    (mkRecord ⟨"http://e.com/a.jpg", some "text/html", some "5"⟩).mimeType = "text/html" :=
  C10_nonimage_header_verbatim ⟨"http://e.com/a.jpg", some "text/html", some "5"⟩
    "text/html" rfl (by decide) (by decide) (by decide)

/-! ## C2 — which responses produce a record (spec §4.2 step 2, §8) -/

/-- C2 as stated is false: the code tests whether the *whole URL string*
ends with an image extension (`url.toLowerCase().endsWith(ext)`), not the
URL's path suffix.  For `http://e.com/pic.png?v=2` (no `content-type`
header) the claim's condition holds — the path ends in `.png` — yet the
call returns an empty inventory: no record is created. -/
theorem C2_counterexample :
    specQualifies ⟨"http://e.com/pic.png?v=2", none, none⟩ = true ∧
    queryUrlBehavior.responses = [⟨"http://e.com/pic.png?v=2", none, none⟩] ∧
    (extractImagesFromURL queryUrlBehavior).result = Except.ok [] :=
  ⟨rfl, rfl, rfl⟩

theorem isImageUrl_eq_extensionMatch (u : String) : isImageUrl u = extensionMatch u := by
  simp [isImageUrl, extensionMatch, IMAGE_EXTENSIONS, Bool.or_assoc]

theorem collectRecords_eq_filter (rs : List Response) :
    collectRecords rs = (rs.filter isImageResponse).map mkRecord := by
  induction rs with
  | nil => rfl
  | cons r rest ih =>
    unfold collectRecords at ih ⊢
    rw [List.filterMap_cons, List.filter_cons]
    cases hr : isImageResponse r
    · simp only [Bool.false_eq_true, if_neg]
      exact ih
    · simp only [if_pos]
      rw [List.map_cons, ih]

/-- C2 amended: a record is created for an observed response if and only if
its `content-type` header starts with `"image"` or the *entire URL string*,
lowercased, ends with one of jpg, jpeg, png, gif, webp, bmp, ico, svg (a
matching path whose URL continues with a query or fragment does not
qualify); and every returned record originates from such a qualifying
response. -/
theorem C2_amended_record_iff :
    (∀ rs : List Response,
      collectRecords rs =
        (rs.filter
          (fun r => ctStartsWithImage r.contentType || extensionMatch r.url)).map mkRecord) ∧
    ∀ b : PageBehavior, ∀ rec ∈ fullInventory b, ∃ r ∈ b.responses,
      (ctStartsWithImage r.contentType || extensionMatch r.url) = true ∧ rec.src = r.url := by
  have hpred : ∀ r : Response,
      isImageResponse r = (ctStartsWithImage r.contentType || extensionMatch r.url) := by
    intro r
    unfold isImageResponse
    rw [isImageUrl_eq_extensionMatch]
  constructor
  · intro rs
    rw [collectRecords_eq_filter]
    congr 1
    apply List.filter_congr
    intro r _
    exact hpred r
  · intro b rec hrec
    obtain ⟨r, hr, hq, hdec⟩ := mem_fullInventory hrec
    refine ⟨r, hr, ?_, ?_⟩
    · rw [← hpred r]
      exact hq
    · rw [hdec, decodeImage_src]
      rfl

/-- C2 amended, instantiated: the handler of `queryUrlBehavior` creates no
record for its query-string URL, and the `.GIF` record of `sampleBehavior`
originates from a qualifying response. -/
theorem C2_witness :
    (collectRecords queryUrlBehavior.responses =
      (queryUrlBehavior.responses.filter
        (fun r => ctStartsWithImage r.contentType || extensionMatch r.url)).map mkRecord) ∧
    ∃ r ∈ sampleBehavior.responses,
      (ctStartsWithImage r.contentType || extensionMatch r.url) = true ∧
      (⟨"http://e.com/b.GIF", .nan, "image/gif", 0, 0, false⟩ : ExtractImageData).src =
        r.url :=
  ⟨C2_amended_record_iff.1 queryUrlBehavior.responses,
   C2_amended_record_iff.2 sampleBehavior
     ⟨"http://e.com/b.GIF", .nan, "image/gif", 0, 0, false⟩ (by decide)⟩

/-! ## C3 — `getBrowser` error absorption (spec §4.1, §7) -/

/-- C3 as stated is false: `await puppeteer.sessions(BROWSER)` is not inside
any `try`, so a rejection of the session-listing call propagates out of
`getBrowser` as an exception instead of being absorbed. -/
theorem C3_counterexample :
    getBrowser failingListProvider true none = Except.error "sessions listing failed" :=
  rfl

/-- C3 amended: `getBrowser` absorbs every failure of the *attach*, *launch*
and *direct-connect* operations and turns them into "try the next option" /
"no handle"; but failures of the session listing (`puppeteer.sessions`) and
of the limits query (`puppeteer.limits`) are not caught and propagate.
Whenever those two resolve, the call returns without raising. -/
theorem C3_amended_absorbs (p : BrowserProvider) (hasWorker : Bool) (ws : Option String)
    (hs : ∃ ss, p.sessions = Except.ok ss) (hl : ∃ ids, p.limits = Except.ok ids) :
    ∃ ob : Option Browser, getBrowser p hasWorker ws = Except.ok ob := by
  obtain ⟨ss, hss⟩ := hs
  obtain ⟨ids, hids⟩ := hl
  cases hasWorker with
  | false => exact ⟨_, rfl⟩
  | true =>
    simp only [getBrowser, hss, hids, if_true]
    cases h1 : tryConnectEach p ((ss.filter
        (fun s => !strTruthy s.connectionId)).map SessionInfo.sessionId) with
    | some b => exact ⟨_, rfl⟩
    | none =>
      cases h2 : tryConnectEach p ids with
      | some b => exact ⟨_, rfl⟩
      | none =>
        cases h3 : p.launchNew with
        | ok b => exact ⟨_, rfl⟩
        | error e => exact ⟨_, rfl⟩

/-- C3 amended, instantiated: with listing and limits resolving, even
all-failing connection attempts produce a normal return (an absent handle),
not an exception. -/
theorem C3_witness :
    ∃ ob : Option Browser,
      getBrowser allConnectsFailProvider true (some "ws://x") = Except.ok ob :=
  C3_amended_absorbs allConnectsFailProvider true (some "ws://x") ⟨_, rfl⟩ ⟨_, rfl⟩

/-! ## C6 — idle sessions tried in listed order (spec §4.1 step 1a, §8) -/

/-- C6: with three idle sessions listed, attach failing on the first two and
succeeding on the third, `getBrowser` returns the third session's handle —
the two failures do not abort the search. -/
theorem C6_third_idle_session_wins (p : BrowserProvider) (ws : Option String)
    (s1 s2 s3 : SessionInfo) (b : Browser) (e1 e2 : Err)
    (hsess : p.sessions = Except.ok [s1, s2, s3])
    (h1 : strTruthy s1.connectionId = false)
    (h2 : strTruthy s2.connectionId = false)
    (h3 : strTruthy s3.connectionId = false)
    (hc1 : p.connect s1.sessionId = Except.error e1)
    (hc2 : p.connect s2.sessionId = Except.error e2)
    (hc3 : p.connect s3.sessionId = Except.ok b) :
    getBrowser p true ws = Except.ok (some b) := by
  have hfilter :
      (([s1, s2, s3].filter (fun s => !strTruthy s.connectionId)).map SessionInfo.sessionId)
        = [s1.sessionId, s2.sessionId, s3.sessionId] := by
    simp [List.filter_cons, h1, h2, h3]
  have htry : tryConnectEach p [s1.sessionId, s2.sessionId, s3.sessionId] = some b := by
    simp only [tryConnectEach, hc1, hc2, hc3]
  simp only [getBrowser, hsess, if_true, hfilter, htry]
  simp [wsFallback]

/-- C6 instantiated on `threeIdleProvider`. -/
theorem C6_witness :
    getBrowser threeIdleProvider true none = Except.ok (some ⟨"b3"⟩) :=
  C6_third_idle_session_wins threeIdleProvider none ⟨"s1", none⟩ ⟨"s2", none⟩
    ⟨"s3", none⟩ ⟨"b3"⟩ "attach failed" "attach failed" rfl rfl rfl rfl
    rfl rfl rfl
